import Mathlib

/-!
Verification of the trading-bot backtesting core.

This file gives a shallow embedding, over `ℚ` and `List`, of the parts of the
repository that the checked claims talk about:

* `app/backtesting/engine.py` — the `Backtester`: the sequential
  stop-loss / take-profit pass `_enforce_sl_tp`, the warm-up trim and window
  slice in `run`, and the vectorized performance evaluator
  (`pct_change` / `shifted_signal` / `strategy_return` / `equity_curve`).
* `app/config/models.py` — `RiskConfig` and the filter configuration structs.
* `app/strategies/sma_cross.py`, `app/strategies/atr_strategy.py`,
  `app/strategies/bollinger_band.py` — per-bar trigger conditions, the nested
  `np.where` signal combination, the long-only post-step, and the
  `max_lookback_period` properties.
* `app/strategies/momentum_filters.py` — the MACD confirmation filter
  (`is_entry_valid` masks and `max_lookback_period`).
* `tools/analyze_optimization.py` — `calculate_robustness_factor`.

Machine floats are modelled by exact rationals; pandas NaN cells produced by
`shift` are modelled structurally (a shifted comparison at bar 0 is `false`,
matching NaN comparison semantics, and the leading `pct_change` NaN is the
literal `0` written by `fillna(0.0)`).
-/

namespace TradingBot

/-! ### Data model

`RiskConfig` is embedded from `app/config/models.py` lines 11–15.  Its three
fields are `max_position_size_usd`, `stop_loss_pct` and `take_profit_pct`;
the source defines no `max_hold_period` field. -/

structure RiskConfig where
  max_position_size_usd : ℚ
  stop_loss_pct : ℚ
  take_profit_pct : ℚ
deriving DecidableEq

/-- One row of the DataFrame handed to `Backtester._enforce_sl_tp`: the bar
close, the strategy signal, and the optional strategy-provided
`stop_loss_price` column value (`none` models both an absent column and a NaN
cell, which `pd.notna` rejects). -/
structure BarRow where
  close : ℚ
  signal : Int
  stop_loss_price : Option ℚ
deriving DecidableEq

/-- The mutable position state threaded through the bar loop of
`_enforce_sl_tp` (engine.py lines 183–188).  The Python loop also tracks
`entry_index`, but that variable is write-only and never influences the
output, so it is not modelled. -/
structure ExitState where
  in_position : Bool
  entry_price : ℚ
  stop_loss_price : ℚ
  take_profit_price : ℚ
deriving DecidableEq

/-- The state after a forced or signalled exit: engine.py resets
`in_position = False` and zeroes the three prices (lines 210–213, 225–228,
262–265); this is also the state before the first bar (lines 184–187). -/
def flatState : ExitState := ⟨false, 0, 0, 0⟩

/-- Stop-loss price chosen on entry (engine.py lines 236–246): the
strategy-provided per-bar `stop_loss_price` when the column holds a non-NaN
positive value, else `entry_price * (1 - stop_loss_pct)` from the config. -/
def entryStopLoss (cfg : RiskConfig) (row : BarRow) : ℚ :=
  match row.stop_loss_price with
  | some v => if 0 < v then v else row.close * (1 - cfg.stop_loss_pct)
  | none => row.close * (1 - cfg.stop_loss_pct)

/-- One iteration of the sequential loop in `_enforce_sl_tp`
(engine.py lines 195–265), producing the next position state and the
(possibly overwritten) output row.  Branch order is the source order:
stop-loss check, take-profit check (each `continue`s), then the BUY entry
and the strategy SELL exit. -/
def enforceStep (cfg : RiskConfig) (st : ExitState) (row : BarRow) :
    ExitState × BarRow :=
  if st.in_position = true ∧ row.close ≤ st.stop_loss_price then
    (flatState, { row with signal := -1 })
  else if st.in_position = true ∧ st.take_profit_price ≤ row.close then
    (flatState, { row with signal := -1 })
  else if row.signal = 1 ∧ st.in_position = false then
    ({ in_position := true
       entry_price := row.close
       stop_loss_price := entryStopLoss cfg row
       take_profit_price := row.close * (1 + cfg.take_profit_pct) }, row)
  else if row.signal = -1 ∧ st.in_position = true then
    (flatState, row)
  else
    (st, row)

/-- The bar-by-bar walk of `_enforce_sl_tp` from an arbitrary starting
state. -/
def enforceList (cfg : RiskConfig) (st : ExitState) : List BarRow → List BarRow
  | [] => []
  | r :: rs =>
      (enforceStep cfg st r).2 :: enforceList cfg (enforceStep cfg st r).1 rs

/-- `Backtester._enforce_sl_tp` (engine.py lines 164–274): walks the rows
from the flat state; an empty frame is returned unchanged (line 177–178). -/
def enforceSlTp (cfg : RiskConfig) (rows : List BarRow) : List BarRow :=
  enforceList cfg flatState rows

/-- The position state held just before bar `i` of the walk started in state
`st`. -/
def stateAt (cfg : RiskConfig) (st : ExitState) : List BarRow → Nat → ExitState
  | _, 0 => st
  | [], _ + 1 => st
  | r :: rs, i + 1 => stateAt cfg (enforceStep cfg st r).1 rs i

/-- The position state after the whole walk. -/
def finalState (cfg : RiskConfig) (st : ExitState) (rows : List BarRow) :
    ExitState :=
  rows.foldl (fun s r => (enforceStep cfg s r).1) st

/-! ### Performance evaluator

Engine.py lines 97–100:
`pct_change = close.pct_change().fillna(0.0)`,
`shifted_signal = signal.shift(1).fillna(0.0)`,
`strategy_return = shifted_signal * pct_change`,
`equity_curve = (1 + strategy_return).cumprod() * initial_capital`. -/

/-- Tail of `close.pct_change()` given the previous close. -/
def pctChangeFrom (prev : ℚ) : List ℚ → List ℚ
  | [] => []
  | c :: rest => (c - prev) / prev :: pctChangeFrom c rest

/-- `close.pct_change().fillna(0.0)`: the bar-0 NaN becomes `0`. -/
def pctChange : List ℚ → List ℚ
  | [] => []
  | c :: rest => 0 :: pctChangeFrom c rest

/-- `signal.shift(1).fillna(0.0)`: a leading `0`, dropping the last value. -/
def shiftSignals (ss : List ℚ) : List ℚ :=
  match ss with
  | [] => []
  | _ :: _ => 0 :: ss.dropLast

/-- `strategy_return = shifted_signal * pct_change`, elementwise. -/
def strategyReturn (closes signals : List ℚ) : List ℚ :=
  List.zipWith (· * ·) (shiftSignals signals) (pctChange closes)

/-- Running cumulative product with accumulator `acc`. -/
def cumprodFrom (acc : ℚ) : List ℚ → List ℚ
  | [] => []
  | x :: xs => (acc * x) :: cumprodFrom (acc * x) xs

/-- `equity_curve = (1 + strategy_return).cumprod() * initial_capital`. -/
def equityCurve (capital : ℚ) (rets : List ℚ) : List ℚ :=
  (cumprodFrom 1 (rets.map (fun r => 1 + r))).map (fun p => p * capital)

/-! ### Warm-up trim and window slice

Engine.py lines 76–89: after signals are generated on the buffered fetch, the
frame is cut with `df.iloc[max_lookback:]` — but only when
`max_lookback > 0 and len(df) > max_lookback` — and only then sliced to
`start_ts <= index <= end_ts`.  Rows are modelled as (timestamp, row)
pairs. -/

def warmupTrim (maxLookback : Nat) (rows : List (Nat × BarRow)) :
    List (Nat × BarRow) :=
  if 0 < maxLookback ∧ maxLookback < rows.length then
    rows.drop maxLookback
  else
    rows

def sliceWindow (startTs endTs : Nat) (rows : List (Nat × BarRow)) :
    List (Nat × BarRow) :=
  rows.filter (fun r => decide (startTs ≤ r.1) && decide (r.1 ≤ endTs))

/-- The trim-then-slice phase of `Backtester.run` (engine.py lines 81–89). -/
def runTrimSlice (maxLookback startTs endTs : Nat)
    (rows : List (Nat × BarRow)) : List (Nat × BarRow) :=
  sliceWindow startTs endTs (warmupTrim maxLookback rows)

/-! ### Lookback periods -/

/-- `MomentumFilterConfig` from `app/config/models.py` lines 58–64. -/
structure MomentumFilterConfig where
  macd_fast : Nat
  macd_slow : Nat
  macd_signal : Nat
deriving DecidableEq

/-- `MACDConfirmationFilter.max_lookback_period`
(momentum_filters.py lines 37–42): `macd_slow + macd_signal`. -/
def macdConfirmationFilterMaxLookback (cfg : MomentumFilterConfig) : Nat :=
  cfg.macd_slow + cfg.macd_signal

/-- `RegimeFilterConfig` from `app/config/models.py` lines 47–55. -/
structure RegimeFilterConfig where
  adx_window : Nat
  adx_threshold : Nat
deriving DecidableEq

/-- The `max_lookback_period` member of `ADXVolatilityFilter`
(`app/strategies/regime_filters.py`): the class implements only `get_regime`
and `_calculate_adx_dmi` and does NOT override the abstract property
`IMarketRegimeFilter.max_lookback_period` declared in
`app/core/interfaces.py` lines 61–73, so no such member exists — every
instantiation (`app/core/strategy_factory.py` lines 54 and 98,
`tools/optimize_strategy.py` line 1407) raises `TypeError`. -/
def adxVolatilityFilterMaxLookback : Option (RegimeFilterConfig → Nat) := none

/-- Python `max(lookbacks)` over the list built from the strategy lookback
plus the attached filters, as in the `max_lookback_period` properties of all
three strategies. -/
def lookbackWithFilters (strategyLb : Nat) (regimeLb momLb : Option Nat) :
    Nat :=
  (regimeLb.toList ++ momLb.toList).foldl max strategyLb

/-- `SmaCrossStrategy.max_lookback_period` (sma_cross.py lines 22–46):
`max(fast_window, slow_window)` folded with the attached filter
lookbacks. -/
def smaCrossMaxLookback (fast slow : Nat) (regimeLb momLb : Option Nat) :
    Nat :=
  lookbackWithFilters (max fast slow) regimeLb momLb

/-- `VolatilityAdjustedStrategy.max_lookback_period`
(atr_strategy.py lines 259–288). -/
def volatilityAdjustedMaxLookback (fast slow atrW volLb : Nat)
    (regimeLb momLb : Option Nat) : Nat :=
  lookbackWithFilters (max (max (max fast slow) atrW) volLb) regimeLb momLb

/-- `BollingerBandStrategy.max_lookback_period`
(bollinger_band.py lines 238–259). -/
def bollingerMaxLookback (bbW : Nat) (regimeLb momLb : Option Nat) : Nat :=
  lookbackWithFilters bbW regimeLb momLb

/-! ### Signal generation

The three strategies all assign
`signal = np.where(buy_condition, 1, np.where(sell_condition, -1, 0))`
(sma_cross.py lines 90–94, atr_strategy.py lines 222–226,
bollinger_band.py lines 220–224).  `combineSignal` is that nested selection
applied at one bar. -/

def combineSignal (buy sell : Bool) : Int :=
  if buy then 1 else if sell then -1 else 0

/-- Golden cross at one bar (sma_cross.py line 82, atr_strategy.py line 153):
`prev_fast <= prev_slow` and `curr_fast > curr_slow`. -/
def goldenCrossP (pf ps cf cs : ℚ) : Prop := pf ≤ ps ∧ cs < cf

instance (pf ps cf cs : ℚ) : Decidable (goldenCrossP pf ps cf cs) :=
  instDecidableAnd

/-- Death cross at one bar (sma_cross.py line 86, atr_strategy.py line 156):
`prev_fast >= prev_slow` and `curr_fast < curr_slow`. -/
def deathCrossP (pf ps cf cs : ℚ) : Prop := ps ≤ pf ∧ cf < cs

instance (pf ps cf cs : ℚ) : Decidable (deathCrossP pf ps cf cs) :=
  instDecidableAnd

/-- Bollinger bands (bollinger_band.py lines 103–104):
`upper = middle + bb_std_dev * std`. -/
def bbUpper (middle sd k : ℚ) : ℚ := middle + k * sd

/-- The lower band, `lower = middle - bb_std_dev * std`. -/
def bbLower (middle sd k : ℚ) : ℚ := middle - k * sd

/-- BB long trigger at one bar (bollinger_band.py line 160):
`prev_close >= prev_lower` and `curr_close < curr_lower`. -/
def bbLongTriggerP (prevClose currClose prevLower currLower : ℚ) : Prop :=
  prevLower ≤ prevClose ∧ currClose < currLower

/-- BB short trigger at one bar (bollinger_band.py line 164):
`prev_close <= prev_upper` and `curr_close > curr_upper`. -/
def bbShortTriggerP (prevClose currClose prevUpper currUpper : ℚ) : Prop :=
  prevClose ≤ prevUpper ∧ currUpper < currClose

/-- Pandas `ewm(span, adjust=False).mean()` tail:
`y_t = alpha * x_t + (1 - alpha) * y_(t-1)`. -/
def ewmFrom (alpha prev : ℚ) : List ℚ → List ℚ
  | [] => []
  | x :: xs =>
      (alpha * x + (1 - alpha) * prev) :: ewmFrom alpha (alpha * x + (1 - alpha) * prev) xs

/-- Pandas `ewm(span=w, adjust=False).mean()` with `alpha = 2 / (w + 1)`;
the first output equals the first input. -/
def ewm (span : Nat) (xs : List ℚ) : List ℚ :=
  match xs with
  | [] => []
  | x :: rest => x :: ewmFrom (2 / ((span : ℚ) + 1)) x rest

/-- The nested `np.where(buy, 1, np.where(sell, -1, 0))` of
`SmaCrossStrategy.generate_signals` applied at one bar to the golden and
death cross masks for that bar. -/
def smaBarSignal (pf ps cf cs : ℚ) : Int :=
  if goldenCrossP pf ps cf cs then 1
  else if deathCrossP pf ps cf cs then -1
  else 0

/-- Per-bar signals for two indicator series, comparing each bar against the
previous one. -/
def smaSignalsFrom (pf ps : ℚ) : List ℚ → List ℚ → List Int
  | f :: fs, s :: ss => smaBarSignal pf ps f s :: smaSignalsFrom f s fs ss
  | _, _ => []

/-- The long-only post-step (sma_cross.py lines 100–101): SELL entries become
HOLD when `config.long_only` is set. -/
def applyLongOnly (longOnly : Bool) (sigs : List Int) : List Int :=
  if longOnly then sigs.map (fun s => if s = -1 then 0 else s) else sigs

/-- `SmaCrossStrategy.generate_signals` (sma_cross.py lines 62–106) given the
two EMA windows: EMAs of close, cross conditions against the one-bar-shifted
series (the bar-0 signal is `0` because comparisons against the shifted NaN
are `False`), the nested `np.where`, then the long-only step.  Faithfully to
the source, the attached regime / momentum filters are never consulted
here. -/
def smaGenerateSignals (fast slow : Nat) (longOnly : Bool)
    (closes : List ℚ) : List Int :=
  applyLongOnly longOnly
    (match ewm fast closes, ewm slow closes with
     | f :: fs, s :: ss => 0 :: smaSignalsFrom f s fs ss
     | _, _ => [])

/-- MACD histogram (momentum_filters.py lines 61–70): fast EMA minus slow EMA,
signal line as EMA of that, histogram as the difference. -/
def macdHistogram (cfg : MomentumFilterConfig) (closes : List ℚ) : List ℚ :=
  List.zipWith (· - ·)
    (List.zipWith (· - ·) (ewm cfg.macd_fast closes) (ewm cfg.macd_slow closes))
    (ewm cfg.macd_signal
      (List.zipWith (· - ·) (ewm cfg.macd_fast closes) (ewm cfg.macd_slow closes)))

/-- `MACDConfirmationFilter.is_entry_valid(..., Signal.BUY)` at bar `t`
(momentum_filters.py lines 53–54): the histogram is strictly positive
there. -/
def macdBuyOkAt (cfg : MomentumFilterConfig) (closes : List ℚ) (t : Nat) :
    Prop :=
  ∃ h, (macdHistogram cfg closes)[t]? = some h ∧ 0 < h

/-- `MACDConfirmationFilter.is_entry_valid(..., Signal.SELL)` at bar `t`
(momentum_filters.py lines 55–56): the histogram is strictly negative
there. -/
def macdSellOkAt (cfg : MomentumFilterConfig) (closes : List ℚ) (t : Nat) :
    Prop :=
  ∃ h, (macdHistogram cfg closes)[t]? = some h ∧ h < 0

/-- Per-bar signal combination of `VolatilityAdjustedStrategy.generate_signals`
(atr_strategy.py lines 204–226): the BUY condition is the golden cross AND the
volatility check, the SELL condition the death cross; when an active regime
filter is attached (`regime = some (buyOk, sellOk)`) each side is ANDed with
its regime mask; both sides are then ANDed with the momentum masks (which are
all-true series when no momentum filter is attached), and the nested
`np.where` picks the value. -/
def atrBarSignal (golden death hasVol : Bool) (regime : Option (Bool × Bool))
    (momBuy momSell : Bool) : Int :=
  let buyBase := golden && hasVol
  let buyCond :=
    (match regime with
     | some m => buyBase && m.1
     | none => buyBase) && momBuy
  let sellCond :=
    (match regime with
     | some m => death && m.2
     | none => death) && momSell
  combineSignal buyCond sellCond

/-- Per-bar signal combination of `BollingerBandStrategy.generate_signals`
(bollinger_band.py lines 204–231), including the long-only post-step. -/
def bbBarSignal (longTrig shortTrig : Bool) (regime : Option (Bool × Bool))
    (momBuy momSell : Bool) (longOnly : Bool) : Int :=
  let buyCond :=
    (match regime with
     | some m => longTrig && m.1
     | none => longTrig) && momBuy
  let sellCond :=
    (match regime with
     | some m => shortTrig && m.2
     | none => shortTrig) && momSell
  let s := combineSignal buyCond sellCond
  if longOnly then (if s = -1 then 0 else s) else s

/-! ### Robustness factor -/

/-- `calculate_robustness_factor` from `tools/analyze_optimization.py`
lines 80–120: zero for non-positive OOS Sharpe, zero for IS Sharpe at most
`0.01`, else `sharpe_oos * (sharpe_oos / sharpe_is)`. -/
def calculateRobustnessFactor (s_is s_oos : ℚ) : ℚ :=
  if s_oos ≤ 0 then 0
  else if s_is ≤ 1 / 100 then 0
  else s_oos * (s_oos / s_is)

/-! ### Concrete demonstration inputs -/

/-- Demonstration risk configuration: 2% stop loss, 4% take profit (the
source defaults from `app/config/models.py` lines 14–15). -/
def demoCfg : RiskConfig := ⟨1000, 2 / 100, 4 / 100⟩

/-- Three timestamped bars, used to exercise the warm-up trim guard. -/
def shortRows : List (Nat × BarRow) :=
  [(0, ⟨100, 0, none⟩), (1, ⟨100, 0, none⟩), (2, ⟨100, 0, none⟩)]

/-- A BUY bar followed by nine flat bars whose closes never touch the
stop-loss (98) or take-profit (104) level of the opened position. -/
def holdRows : List BarRow := ⟨100, 1, none⟩ :: List.replicate 9 ⟨100, 0, none⟩

/-! ## Helper lemmas -/

lemma length_pctChangeFrom (prev : ℚ) (xs : List ℚ) :
    (pctChangeFrom prev xs).length = xs.length := by
  induction xs generalizing prev with
  | nil => rfl
  | cons c rest ih => simp [pctChangeFrom, ih]

lemma length_pctChange (xs : List ℚ) : (pctChange xs).length = xs.length := by
  cases xs with
  | nil => rfl
  | cons c rest => simp [pctChange, length_pctChangeFrom]

lemma length_shiftSignals (ss : List ℚ) :
    (shiftSignals ss).length = ss.length := by
  cases ss with
  | nil => rfl
  | cons a tl => simp [shiftSignals]

lemma length_strategyReturn (closes signals : List ℚ)
    (h : signals.length = closes.length) :
    (strategyReturn closes signals).length = closes.length := by
  simp [strategyReturn, List.length_zipWith, length_shiftSignals,
    length_pctChange, h]

lemma shiftSignals_getElem_succ (ss : List ℚ) (t : Nat)
    (ht : t + 1 < ss.length) : (shiftSignals ss)[t + 1]? = ss[t]? := by
  cases ss with
  | nil => simp at ht
  | cons a tl =>
    simp only [shiftSignals, List.getElem?_cons_succ]
    rw [List.dropLast_eq_take, List.getElem?_take, if_pos]
    simpa using Nat.lt_of_succ_lt_succ (by simpa using ht)

lemma cumprodFrom_getElem (xs : List ℚ) :
    ∀ (acc : ℚ) (i : Nat), i < xs.length →
      (cumprodFrom acc xs)[i]? = some (acc * (xs.take (i + 1)).prod) := by
  induction xs with
  | nil => intro acc i h; simp at h
  | cons x tl ih =>
    intro acc i h
    cases i with
    | zero => simp [cumprodFrom]
    | succ j =>
      simp only [cumprodFrom, List.getElem?_cons_succ]
      rw [ih (acc * x) j (by simpa using Nat.lt_of_succ_lt_succ h),
        List.take_succ_cons]
      simp [mul_assoc]

lemma equityCurve_getElem (cap : ℚ) (rets : List ℚ) (u : Nat)
    (h : u < rets.length) :
    (equityCurve cap rets)[u]? =
      some (cap * (((rets.take (u + 1)).map (fun r => 1 + r)).prod)) := by
  unfold equityCurve
  rw [List.getElem?_map _ _ u, cumprodFrom_getElem _ _ _ (by simpa using h)]
  simp [← List.map_take, mul_comm]

lemma length_enforceList (cfg : RiskConfig) :
    ∀ (st : ExitState) (rows : List BarRow),
      (enforceList cfg st rows).length = rows.length := by
  intro st rows
  induction rows generalizing st with
  | nil => rfl
  | cons r rs ih => simp [enforceList, ih]

/-- The output row of one loop iteration is either the input row unchanged or
the input row with its signal overwritten to `-1`, the latter only while
in position with the close at or beyond a stop-loss / take-profit level. -/
lemma enforceStep_row (cfg : RiskConfig) (st : ExitState) (r : BarRow) :
    (enforceStep cfg st r).2 = r ∨
      ((enforceStep cfg st r).2 = { r with signal := -1 } ∧
        st.in_position = true ∧
        (r.close ≤ st.stop_loss_price ∨ st.take_profit_price ≤ r.close)) := by
  unfold enforceStep
  split_ifs with h1 h2 h3 h4
  · exact Or.inr ⟨rfl, h1.1, Or.inl h1.2⟩
  · exact Or.inr ⟨rfl, h2.1, Or.inr h2.2⟩
  · exact Or.inl rfl
  · exact Or.inl rfl
  · exact Or.inl rfl

lemma enforceList_frame (cfg : RiskConfig) :
    ∀ (st : ExitState) (rows : List BarRow) (i : Nat) (rIn : BarRow),
      rows[i]? = some rIn →
      ∃ rOut, (enforceList cfg st rows)[i]? = some rOut ∧
        rOut.close = rIn.close ∧
        rOut.stop_loss_price = rIn.stop_loss_price ∧
        (rOut = rIn ∨
          (rOut.signal = -1 ∧ (stateAt cfg st rows i).in_position = true ∧
            (rIn.close ≤ (stateAt cfg st rows i).stop_loss_price ∨
              (stateAt cfg st rows i).take_profit_price ≤ rIn.close))) := by
  intro st rows
  induction rows generalizing st with
  | nil => intro i rIn h; simp at h
  | cons r rs ih =>
    intro i rIn h
    cases i with
    | zero =>
      simp only [List.getElem?_cons_zero, Option.some.injEq] at h
      subst h
      rcases enforceStep_row cfg st r with he | ⟨he, hp, hc⟩
      · exact ⟨(enforceStep cfg st r).2, by simp [enforceList], by rw [he],
          by rw [he], Or.inl he⟩
      · exact ⟨(enforceStep cfg st r).2, by simp [enforceList], by rw [he],
          by rw [he], Or.inr ⟨by rw [he], by simpa [stateAt] using hp,
            by simpa [stateAt] using hc⟩⟩
    | succ j =>
      simp only [List.getElem?_cons_succ] at h
      obtain ⟨rOut, h1, h2, h3, h4⟩ := ih (enforceStep cfg st r).1 j rIn h
      exact ⟨rOut, by simpa [enforceList] using h1, h2, h3,
        by simpa [stateAt] using h4⟩

/-! ## Claim theorems -/

/-- C9: `calculate_robustness_factor(sharpe_is, sharpe_oos)` returns `0`
whenever `sharpe_oos ≤ 0` (regardless of `sharpe_is`) or
`sharpe_is ≤ 0.01`, and otherwise returns
`sharpe_oos * (sharpe_oos / sharpe_is)`. -/
theorem c9_robustness_factor (s_is s_oos : ℚ) :
    (s_oos ≤ 0 → calculateRobustnessFactor s_is s_oos = 0) ∧
    (s_is ≤ 1 / 100 → calculateRobustnessFactor s_is s_oos = 0) ∧
    (0 < s_oos → 1 / 100 < s_is →
      calculateRobustnessFactor s_is s_oos = s_oos * (s_oos / s_is)) := by
  unfold calculateRobustnessFactor
  refine ⟨fun h => by rw [if_pos h], fun h => ?_, fun h1 h2 => ?_⟩
  · by_cases h3 : s_oos ≤ 0
    · rw [if_pos h3]
    · rw [if_neg h3, if_pos h]
  · rw [if_neg (by linarith), if_neg (by linarith)]

/-- Witness for C9, at the spec's Example 4 input (IS = 2.0, OOS = −0.5) and
at a passing input. -/
theorem c9_robustness_factor_witness :
    calculateRobustnessFactor 2 (-1 / 2) = 0 ∧
    calculateRobustnessFactor 2 1 = 1 * (1 / 2) := by
  constructor
  · exact (c9_robustness_factor 2 (-1 / 2)).1 (by norm_num)
  · have h := (c9_robustness_factor 2 1).2.2 (by norm_num) (by norm_num)
    rw [h]

/-- C5: the MACD momentum filter exposes
`max_lookback_period = macd_slow + macd_signal` and every moving-average
strategy exposes the maximum of its own windows folded with every attached
filter lookback — but the ADX regime filter exposes NO `max_lookback_period`
at all: `ADXVolatilityFilter` leaves the abstract property of
`IMarketRegimeFilter` unimplemented (`adxVolatilityFilterMaxLookback = none`),
instead of the claimed `2 * adx_window`, so instantiating the filter raises
`TypeError` at every call site. -/
theorem c5_lookback_periods :
    adxVolatilityFilterMaxLookback = none ∧
    (∀ cfg : MomentumFilterConfig,
      macdConfirmationFilterMaxLookback cfg = cfg.macd_slow + cfg.macd_signal) ∧
    (∀ fast slow r m : Nat,
      smaCrossMaxLookback fast slow (some r) (some m) =
        max (max (max fast slow) r) m) ∧
    (∀ fast slow : Nat, smaCrossMaxLookback fast slow none none =
      max fast slow) ∧
    (∀ f s a v r m : Nat,
      volatilityAdjustedMaxLookback f s a v (some r) (some m) =
        max (max (max (max (max f s) a) v) r) m) ∧
    (∀ b r m : Nat,
      bollingerMaxLookback b (some r) (some m) = max (max b r) m) :=
  ⟨rfl, fun _ => rfl, fun _ _ _ _ => rfl, fun _ _ => rfl,
    fun _ _ _ _ _ _ => rfl, fun _ _ _ => rfl⟩

/-- C4 counterexample: at the signal-combination step
`np.where(buy, 1, np.where(sell, -1, 0))`, a bar on which both conditions are
true is assigned BUY (`1`), not SELL (`-1`) — the BUY branch is evaluated
first. -/
theorem c4_counterexample :
    combineSignal true true = 1 ∧ combineSignal true true ≠ -1 := by decide

/-- C4 amended: when both (filtered) trigger conditions hold on a bar the
nested selection emits BUY (`1`); in fact, for all three strategies the BUY
and SELL trigger conditions are mutually exclusive — an EMA golden cross and
death cross cannot coincide, and a close cannot simultaneously cross below
the lower and above the upper Bollinger band (the bands satisfy
`lower ≤ upper` because the rolling standard deviation and the multiplier are
non-negative) — so the tie never arises on any bar. -/
theorem c4_tie_goes_to_buy :
    (∀ b s : Bool, b = true → s = true → combineSignal b s = 1) ∧
    (∀ pf ps cf cs : ℚ,
      ¬(goldenCrossP pf ps cf cs ∧ deathCrossP pf ps cf cs)) ∧
    (∀ pc cc pl pu m sd k : ℚ, 0 ≤ sd → 0 ≤ k →
      ¬(bbLongTriggerP pc cc pl (bbLower m sd k) ∧
        bbShortTriggerP pc cc pu (bbUpper m sd k))) := by
  refine ⟨fun b s hb hs => by rw [hb]; rfl,
    fun pf ps cf cs h => ?_, fun pc cc pl pu m sd k hsd hk h => ?_⟩
  · obtain ⟨⟨h1, h2⟩, ⟨h3, h4⟩⟩ := h
    exact absurd h2 (not_lt.mpr h4.le)
  · obtain ⟨⟨h1, h2⟩, ⟨h3, h4⟩⟩ := h
    simp only [bbLower, bbUpper] at h2 h4
    have hks : 0 ≤ k * sd := mul_nonneg hk hsd
    linarith

/-- Witness for C4 at concrete inputs. -/
theorem c4_tie_goes_to_buy_witness :
    combineSignal true true = 1 ∧
    ¬(goldenCrossP 1 1 2 1 ∧ deathCrossP 1 1 2 1) ∧
    ¬(bbLongTriggerP 100 95 99 (bbLower 100 2 2) ∧
      bbShortTriggerP 100 95 101 (bbUpper 100 2 2)) :=
  ⟨c4_tie_goes_to_buy.1 true true rfl rfl,
    c4_tie_goes_to_buy.2.1 1 1 2 1,
    c4_tie_goes_to_buy.2.2 100 95 99 101 100 2 2 (by norm_num) (by norm_num)⟩

/-- C8 counterexample: `SmaCrossStrategy.generate_signals` never consults the
attached filters.  On closes `[100, 90, 100]` with windows `fast=2, slow=3`
it emits BUY (`1`) on bar 2, although an attached MACD momentum filter
(12, 26, 9) reports the BUY-validity mask `false` on that very bar (the MACD
histogram there is `-224896/616005 < 0`) — so a false momentum mask does not
suppress the entry signal. -/
theorem c8_counterexample :
    smaGenerateSignals 2 3 false [100, 90, 100] = [0, -1, 1] ∧
    ¬ macdBuyOkAt (MomentumFilterConfig.mk 12 26 9) [100, 90, 100] 2 := by
  constructor
  · norm_num [smaGenerateSignals, ewm, ewmFrom, smaSignalsFrom, smaBarSignal,
      goldenCrossP, deathCrossP, applyLongOnly]
  · rintro ⟨h, hh, hpos⟩
    have hle : macdHistogram (MomentumFilterConfig.mk 12 26 9)
        [100, 90, 100] = [0, -224 / 351, -224896 / 616005] := by
      norm_num [macdHistogram, ewm, ewmFrom]
    rw [hle] at hh
    simp only [List.getElem?_cons_succ, List.getElem?_cons_zero,
      Option.some.injEq] at hh
    rw [← hh] at hpos
    norm_num at hpos

/-- C8 amended: `VolatilityAdjustedStrategy` and `BollingerBandStrategy`
combine their trigger with the regime-validity and momentum-validity masks by
logical AND — a false mask in a direction suppresses that direction's entry
signal on the bar — while `SmaCrossStrategy.generate_signals` applies no
filter mask at all. -/
theorem c8_masks_are_anded :
    ∀ golden death hasVol rb rs momBuy momSell longTrig shortTrig lo : Bool,
      (momBuy = false →
        atrBarSignal golden death hasVol (some (rb, rs)) momBuy momSell ≠ 1) ∧
      (momSell = false →
        atrBarSignal golden death hasVol (some (rb, rs)) momBuy momSell ≠ -1) ∧
      (rb = false →
        atrBarSignal golden death hasVol (some (rb, rs)) momBuy momSell ≠ 1) ∧
      (rs = false →
        atrBarSignal golden death hasVol (some (rb, rs)) momBuy momSell ≠ -1) ∧
      (momBuy = false →
        bbBarSignal longTrig shortTrig (some (rb, rs)) momBuy momSell lo ≠ 1) ∧
      (momSell = false →
        bbBarSignal longTrig shortTrig (some (rb, rs)) momBuy momSell lo ≠ -1) ∧
      (rb = false →
        bbBarSignal longTrig shortTrig (some (rb, rs)) momBuy momSell lo ≠ 1) ∧
      (rs = false →
        bbBarSignal longTrig shortTrig (some (rb, rs)) momBuy momSell lo ≠ -1) := by
  decide

/-- Witness for C8 at concrete mask values: both triggers true, momentum BUY
mask false, so no BUY is emitted by the ATR and Bollinger combinations. -/
theorem c8_masks_are_anded_witness :
    atrBarSignal true true true (some (true, true)) false true ≠ 1 ∧
    bbBarSignal true true (some (true, true)) false true false ≠ 1 :=
  ⟨(c8_masks_are_anded true true true true true false true true true false).1
      rfl,
    (c8_masks_are_anded true true true true true false true true true
      false).2.2.2.2.1 rfl⟩

/-- C6 counterexample: when the fetched dataset does not have strictly more
than `max_lookback` bars, `Backtester.run` skips the warm-up trim entirely
(the guard `len(df) > max_lookback` fails), so NOT every run removes exactly
`max_lookback` leading bars: with 3 bars and `max_lookback = 3` nothing is
removed. -/
theorem c6_counterexample :
    runTrimSlice 3 0 10 shortRows = shortRows ∧
    (warmupTrim 3 shortRows).length ≠ shortRows.length - 3 := by decide

/-- C6 amended: whenever `0 < max_lookback` and the fetched dataset has
strictly more than `max_lookback` bars, the engine removes exactly
`max_lookback` leading bars before slicing to the requested window;
otherwise it removes none. -/
theorem c6_warmup_trim (maxLookback startTs endTs : Nat)
    (rows : List (Nat × BarRow)) (h0 : 0 < maxLookback)
    (h1 : maxLookback < rows.length) :
    warmupTrim maxLookback rows = rows.drop maxLookback ∧
    (warmupTrim maxLookback rows).length = rows.length - maxLookback ∧
    runTrimSlice maxLookback startTs endTs rows =
      sliceWindow startTs endTs (rows.drop maxLookback) ∧
    (∀ (ml : Nat) (rs : List (Nat × BarRow)),
      ¬(0 < ml ∧ ml < rs.length) → warmupTrim ml rs = rs) := by
  have he : warmupTrim maxLookback rows = rows.drop maxLookback := by
    unfold warmupTrim
    rw [if_pos ⟨h0, h1⟩]
  refine ⟨he, ?_, ?_, ?_⟩
  · rw [he, List.length_drop]
  · unfold runTrimSlice
    rw [he]
  · intro ml rs h
    unfold warmupTrim
    rw [if_neg h]

/-- Witness for C6: trimming 2 leading bars from a 3-bar dataset. -/
theorem c6_warmup_trim_witness :
    warmupTrim 2 shortRows = shortRows.drop 2 :=
  (c6_warmup_trim 2 0 10 shortRows (by decide) (by decide)).1

/-- C2: the evaluator computes
`strategy_return[t] = signal[t-1] * pct_change[t]` with the bar-0 value `0`,
and `equity[t] = initial_capital * cumprod(1 + strategy_return)[t]`;
on closes `[100, 110, 121, 100]` with signals `[1, 0, -1, 0]` and capital 1
the equity curve is `[1, 1.1, 1.1, 781/605]`, and the final equity
`781/605 = 1.29090...` is within `0.0001` of the claimed `1.2909`. -/
theorem c2_lagged_return_and_equity (closes signals : List ℚ) (cap : ℚ)
    (t : Nat) (hlen : signals.length = closes.length) (h0 : 0 < t)
    (ht : t < closes.length) :
    (∃ s p, signals[t - 1]? = some s ∧ (pctChange closes)[t]? = some p ∧
      (strategyReturn closes signals)[t]? = some (s * p)) ∧
    (strategyReturn closes signals)[0]? = some 0 ∧
    (∀ u, u < closes.length →
      (equityCurve cap (strategyReturn closes signals))[u]? =
        some (cap *
          (((strategyReturn closes signals).take (u + 1)).map
            (fun r => 1 + r)).prod)) ∧
    equityCurve 1 (strategyReturn [100, 110, 121, 100] [1, 0, -1, 0]) =
      [1, 11 / 10, 11 / 10, 781 / 605] ∧
    |(781 / 605 : ℚ) - 12909 / 10000| < 1 / 10000 := by
  refine ⟨?_, ?_, ?_, ?_, by rw [abs_sub_lt_iff]; constructor <;> norm_num⟩
  · obtain ⟨u, rfl⟩ : ∃ u, t = u + 1 := ⟨t - 1, by omega⟩
    have hs : u < signals.length := by omega
    have hpl : u + 1 < (pctChange closes).length := by
      rw [length_pctChange]; exact ht
    have hsh : (shiftSignals signals)[u + 1]? = signals[u]? :=
      shiftSignals_getElem_succ signals u (by omega)
    refine ⟨signals[u], (pctChange closes)[u + 1], ?_, ?_, ?_⟩
    · simp only [Nat.add_sub_cancel]
      exact List.getElem?_eq_getElem hs
    · exact List.getElem?_eq_getElem hpl
    · rw [strategyReturn, List.getElem?_zipWith', hsh,
        List.getElem?_eq_getElem hs, List.getElem?_eq_getElem hpl]
      rfl
  · cases closes with
    | nil => simp at ht
    | cons c rest =>
      cases signals with
      | nil => simp at hlen
      | cons s srest =>
        simp only [strategyReturn, shiftSignals, pctChange,
          List.zipWith_cons_cons, List.getElem?_cons_zero, Option.some.injEq]
        exact zero_mul 0
  · intro u hu
    exact equityCurve_getElem cap (strategyReturn closes signals) u
      (by rw [length_strategyReturn closes signals hlen]; exact hu)
  · norm_num [strategyReturn, pctChange, pctChangeFrom, shiftSignals,
      equityCurve, cumprodFrom]

/-- Witness for C2: the bar-0 strategy return of the worked four-bar example
is `0`. -/
theorem c2_lagged_return_and_equity_witness :
    (strategyReturn [100, 110, 121, 100] [1, 0, -1, 0])[0]? = some 0 :=
  (c2_lagged_return_and_equity [100, 110, 121, 100] [1, 0, -1, 0] 1 3 rfl
    (by decide) (by decide)).2.1

/-- C3 counterexample: on closes `[100, 110, 121]` with per-bar signals
`[1, 0, 0]` the evaluator does NOT produce `strategy_return = [0, 0.10, 0.10]`
and the final equity is NOT `1.21`, because the one-bar-lagged signal on bar 2
is the bar-1 HOLD (`0`). -/
theorem c3_counterexample :
    strategyReturn [100, 110, 121] [1, 0, 0] ≠ [0, 1 / 10, 1 / 10] ∧
    (equityCurve 1 (strategyReturn [100, 110, 121] [1, 0, 0])).getLast? ≠
      some (121 / 100) := by
  have h : strategyReturn [100, 110, 121] [1, 0, 0] = [0, 1 / 10, 0] := by
    norm_num [strategyReturn, pctChange, pctChangeFrom, shiftSignals]
  have h2 : equityCurve 1 (strategyReturn [100, 110, 121] [1, 0, 0]) =
      [1, 11 / 10, 11 / 10] := by
    rw [h]; norm_num [equityCurve, cumprodFrom]
  constructor
  · rw [h]
    intro hc
    rw [List.cons.injEq, List.cons.injEq, List.cons.injEq] at hc
    exact absurd hc.2.2.1 (by norm_num)
  · rw [h2]
    intro hc
    simp only [List.getLast?, Option.some.injEq] at hc
    exact absurd hc (by norm_num)

/-- C3 amended: on closes `[100, 110, 121]` the code gives
`strategy_return = [0, 0.10, 0]` and final equity `1.10` for signals
`[1, 0, 0]`; the claimed `[0, 0.10, 0.10]` and `1.21` arise for signals
`[1, 1, 0]` (the signal must stay `1` to keep the position under the one-bar
lag), exactly as the repository's own test adjusts it. -/
theorem c3_example_corrected :
    strategyReturn [100, 110, 121] [1, 0, 0] = [0, 1 / 10, 0] ∧
    (equityCurve 1 (strategyReturn [100, 110, 121] [1, 0, 0])).getLast? =
      some (11 / 10) ∧
    strategyReturn [100, 110, 121] [1, 1, 0] = [0, 1 / 10, 1 / 10] ∧
    (equityCurve 1 (strategyReturn [100, 110, 121] [1, 1, 0])).getLast? =
      some (121 / 100) := by
  norm_num [strategyReturn, pctChange, pctChangeFrom, shiftSignals,
    equityCurve, cumprodFrom, List.getLast?]

/-- C1 counterexample: with a `RiskConfig` present (2% stop loss, 4% take
profit) a position opened on bar 0 at close 100 and held through nine further
bars at close 100 is never force-exited: the exit pass returns the rows
unchanged (no `-1` is ever written) and the final state is still in position,
so no MAX_HOLD_PERIOD exit exists for any holding length up to 9 — and the
embedded `RiskConfig` (from `app/config/models.py`) has no `max_hold_period`
field at all. -/
theorem c1_counterexample :
    enforceSlTp demoCfg holdRows = holdRows ∧
    (finalState demoCfg flatState holdRows).in_position = true := by
  norm_num [holdRows, demoCfg, enforceSlTp, enforceList, enforceStep,
    entryStopLoss, flatState, finalState, List.replicate]

/-- C1 amended: the sequential exit pass enforces only stop-loss and
take-profit exits; a position whose closes stay strictly between the
stop-loss and take-profit levels and which receives no SELL signal is held
indefinitely — there is no maximum-hold forced exit, and `RiskConfig` carries
`max_position_size_usd`, `stop_loss_pct` and `take_profit_pct` (no
`max_hold_period`). -/
theorem c1_no_max_hold_exit (cfg : RiskConfig) (st : ExitState)
    (rows : List BarRow) (_hpos : st.in_position = true)
    (hrows : ∀ r ∈ rows, r.signal = 0 ∧ st.stop_loss_price < r.close ∧
      r.close < st.take_profit_price) :
    enforceList cfg st rows = rows ∧ finalState cfg st rows = st := by
  induction rows with
  | nil => exact ⟨rfl, rfl⟩
  | cons r rs ih =>
    have hr := hrows r (List.mem_cons_self r rs)
    have hc1 : ¬(st.in_position = true ∧ r.close ≤ st.stop_loss_price) :=
      fun h => absurd h.2 (not_le.mpr hr.2.1)
    have hc2 : ¬(st.in_position = true ∧ st.take_profit_price ≤ r.close) :=
      fun h => absurd h.2 (not_le.mpr hr.2.2)
    have hc3 : ¬(r.signal = 1 ∧ st.in_position = false) := by
      rintro ⟨h1, h2⟩
      rw [hr.1] at h1
      exact absurd h1 (by decide)
    have hc4 : ¬(r.signal = -1 ∧ st.in_position = true) := by
      rintro ⟨h1, h2⟩
      rw [hr.1] at h1
      exact absurd h1 (by decide)
    have hstep : enforceStep cfg st r = (st, r) := by
      unfold enforceStep
      rw [if_neg hc1, if_neg hc2, if_neg hc3, if_neg hc4]
    obtain ⟨ih1, ih2⟩ := ih (fun x hx => hrows x (List.mem_cons_of_mem r hx))
    constructor
    · show (enforceStep cfg st r).2 ::
        enforceList cfg (enforceStep cfg st r).1 rs = r :: rs
      rw [hstep]
      exact congrArg (List.cons r) ih1
    · show List.foldl (fun s x => (enforceStep cfg s x).1)
        (enforceStep cfg st r).1 rs = st
      rw [hstep]
      exact ih2

/-- Witness for C1: a held position with stop at 98 and take profit at 104
survives five flat bars at close 100 unchanged. -/
theorem c1_no_max_hold_exit_witness :
    enforceList demoCfg ⟨true, 100, 98, 104⟩
      (List.replicate 5 ⟨100, 0, none⟩) = List.replicate 5 ⟨100, 0, none⟩ :=
  (c1_no_max_hold_exit demoCfg ⟨true, 100, 98, 104⟩
    (List.replicate 5 ⟨100, 0, none⟩) rfl (by
      intro r hr
      rw [List.eq_of_mem_replicate hr]
      exact ⟨rfl, by norm_num, by norm_num⟩)).1

/-- C7: with a `RiskConfig` present, a BUY while flat opens a position at
`entry_price = close`, stop-loss equal to the bar's strategy-provided
`stop_loss_price` when a positive value is present and
`entry_price * (1 - stop_loss_pct)` otherwise, and take-profit
`entry_price * (1 + take_profit_pct)`; and any bar whose close is at or below
the stop-loss while the position is open has its signal forced to `-1` on
that exact bar and the position becomes flat (so the first such bar exits). -/
theorem c7_entry_and_stop_loss (cfg : RiskConfig) (st : ExitState)
    (row : BarRow) :
    (st.in_position = false → row.signal = 1 →
      enforceStep cfg st row =
        ({ in_position := true
           entry_price := row.close
           stop_loss_price := entryStopLoss cfg row
           take_profit_price := row.close * (1 + cfg.take_profit_pct) },
          row)) ∧
    (∀ v : ℚ, row.stop_loss_price = some v → 0 < v →
      entryStopLoss cfg row = v) ∧
    (row.stop_loss_price = none →
      entryStopLoss cfg row = row.close * (1 - cfg.stop_loss_pct)) ∧
    (st.in_position = true → row.close ≤ st.stop_loss_price →
      (enforceStep cfg st row).2.signal = -1 ∧
      (enforceStep cfg st row).2.close = row.close ∧
      (enforceStep cfg st row).1 = flatState) := by
  refine ⟨fun hf hs => ?_, fun v hv hpos => ?_, fun hn => ?_,
    fun hp hsl => ?_⟩
  · unfold enforceStep
    rw [if_neg (fun h => by rw [hf] at h; exact absurd h.1 (by decide)),
      if_neg (fun h => by rw [hf] at h; exact absurd h.1 (by decide)),
      if_pos ⟨hs, hf⟩]
  · unfold entryStopLoss
    rw [hv]
    exact if_pos hpos
  · unfold entryStopLoss
    rw [hn]
  · unfold enforceStep
    rw [if_pos ⟨hp, hsl⟩]
    exact ⟨rfl, rfl, rfl⟩

/-- Witness for C7: entering on a BUY at close 100 with the demo config
(2% / 4%) and then stopping out at close 97 against a stop of 98. -/
theorem c7_entry_and_stop_loss_witness :
    enforceStep demoCfg flatState ⟨100, 1, none⟩ =
      ({ in_position := true
         entry_price := 100
         stop_loss_price := 100 * (1 - demoCfg.stop_loss_pct)
         take_profit_price := 100 * (1 + demoCfg.take_profit_pct) },
        ⟨100, 1, none⟩) ∧
    (enforceStep demoCfg ⟨true, 100, 98, 104⟩ ⟨97, 0, none⟩).2.signal = -1 := by
  constructor
  · have h := c7_entry_and_stop_loss demoCfg flatState ⟨100, 1, none⟩
    rw [h.1 rfl rfl, h.2.2.1 rfl]
  · exact ((c7_entry_and_stop_loss demoCfg ⟨true, 100, 98, 104⟩
      ⟨97, 0, none⟩).2.2.2 rfl (by norm_num)).1

/-- C10: the exit pass returns an empty frame as-is, preserves the number of
rows, leaves the close and `stop_loss_price` columns of every row untouched,
changes a row's signal only by writing `-1` on a bar where the position is
open and the close is at or beyond the stop-loss / take-profit level, and in
particular a BUY (`1`) arriving on a bar where no such exit fires stays `1`
in the output. -/
theorem c10_signal_only_frame (cfg : RiskConfig) (rows : List BarRow)
    (i : Nat) (rIn : BarRow) (h : rows[i]? = some rIn) :
    enforceSlTp cfg [] = [] ∧
    (enforceSlTp cfg rows).length = rows.length ∧
    ∃ rOut, (enforceSlTp cfg rows)[i]? = some rOut ∧
      rOut.close = rIn.close ∧
      rOut.stop_loss_price = rIn.stop_loss_price ∧
      (rOut.signal = rIn.signal ∨
        (rOut.signal = -1 ∧
          (stateAt cfg flatState rows i).in_position = true ∧
          (rIn.close ≤ (stateAt cfg flatState rows i).stop_loss_price ∨
            (stateAt cfg flatState rows i).take_profit_price ≤ rIn.close))) ∧
      (rIn.signal = 1 →
        ¬(rIn.close ≤ (stateAt cfg flatState rows i).stop_loss_price ∨
          (stateAt cfg flatState rows i).take_profit_price ≤ rIn.close) →
        rOut.signal = 1) := by
  obtain ⟨rOut, h1, h2, h3, h4⟩ := enforceList_frame cfg flatState rows i rIn h
  refine ⟨rfl, length_enforceList cfg flatState rows, rOut, h1, h2, h3,
    ?_, ?_⟩
  · rcases h4 with he | hx
    · exact Or.inl (by rw [he])
    · exact Or.inr hx
  · intro hs hnc
    rcases h4 with he | hx
    · rw [he, hs]
    · exact absurd hx.2.2 hnc

/-- Witness for C10: the pass preserves the length of a concrete two-bar
frame. -/
theorem c10_signal_only_frame_witness :
    (enforceSlTp demoCfg [⟨100, 1, none⟩, ⟨110, 1, none⟩]).length =
      [(⟨100, 1, none⟩ : BarRow), ⟨110, 1, none⟩].length :=
  (c10_signal_only_frame demoCfg [⟨100, 1, none⟩, ⟨110, 1, none⟩] 1
    ⟨110, 1, none⟩ rfl).2.1

end TradingBot
